import Mathlib

/-!
Shallow embedding of the authentication server in `src/server/app.py` and the
mail helper in `src/server/email_service.py`.

Conventions of the embedding:
* Time is measured in abstract minutes (`Nat`); `datetime.utcnow()` becomes an
  explicit `now : Nat` argument threaded into every operation that reads the
  clock.  `timedelta(minutes := 15)` becomes `+ 15`, `timedelta(hours := 24)`
  becomes `+ 24 * 60`.
* A werkzeug password digest is opaque; its only observable is
  `check_password_hash`.  We therefore store the digest as its verification
  predicate `String → Bool` (for a digest of password `p` the predicate is
  `fun x => x == p`).
* SQLAlchemy queries deliver the row they found; operations that begin with
  `User.query.filter_by(...).first()` take that result as an
  `Option User` argument, and return the updated row alongside the response,
  modelling `db.session.commit()` by explicit state passing.
* `jwt.encode` and the `email_validator` library are external collaborators:
  they enter as function arguments (`Except` captures the fact that they can
  raise).
* Python falsiness of request fields (`if not username`) covers both a missing
  key (`None`) and the empty string; `falsy` mirrors that.
-/

/-- Lockout duration from `User.increment_failed_attempts`:
`timedelta(minutes=15)`. -/
def LOCKOUT_MINUTES : Nat := 15

/-- `VERIFICATION_CODE_EXPIRY_HOURS = 24`, expressed in minutes. -/
def VERIFICATION_CODE_EXPIRY_MINUTES : Nat := 24 * 60

/-- `JWT_EXPIRY_HOURS = 24`, expressed in minutes. -/
def JWT_EXPIRY_MINUTES : Nat := 24 * 60

/-- One row of the `User` table (`src/server/app.py`, class `User`).
`checkPassword` is the observable behaviour of `check_password_hash` on the
stored `password_hash`; `verification_code` likewise stores the digest of the
verification code as its verification predicate (absent = SQL `NULL`). -/
structure User where
  id : Nat
  username : String
  email : String
  checkPassword : String → Bool
  is_verified : Bool
  verification_code : Option (String → Bool)
  verification_code_expires : Option Nat
  failed_login_attempts : Nat
  locked_until : Option Nat

/-- `User.check_password` (line 75): delegate to the stored digest. -/
def User.check_password (u : User) (password : String) : Bool :=
  u.checkPassword password

/-- `User.verify_code` (lines 85-89): `False` when no code digest is stored,
otherwise `check_password_hash(self.verification_code, code)`. -/
def User.verify_code (u : User) (code : String) : Bool :=
  match u.verification_code with
  | none => false
  | some chk => chk code

/-- `User.is_locked` (lines 91-95): locked iff `locked_until` is set and
strictly in the future. -/
def User.is_locked (u : User) (now : Nat) : Bool :=
  match u.locked_until with
  | some t => decide (t > now)
  | none => false

/-- `User.increment_failed_attempts` (lines 97-103): bump the counter and,
once it has reached 5, set `locked_until = now + 15 minutes`. -/
def User.increment_failed_attempts (u : User) (now : Nat) : User :=
  let u' := { u with failed_login_attempts := u.failed_login_attempts + 1 }
  if u'.failed_login_attempts ≥ 5 then
    { u' with locked_until := some (now + LOCKOUT_MINUTES) }
  else
    u'

/-- `User.reset_failed_attempts` (lines 105-108). -/
def User.reset_failed_attempts (u : User) : User :=
  { u with failed_login_attempts := 0, locked_until := none }

/-- Python falsiness of an optional request string: `None` and `""` are falsy. -/
def falsy : Option String → Bool
  | none => true
  | some s => s == ""

/-- The behaviour of `jwt.encode` for a given payload: either a token or a
raised exception (external collaborator). -/
def JwtEncoder : Type := Nat → String → Except String String

/-- `generate_jwt_token` (lines 142-155): returns the encoded token, or `None`
when `jwt.encode` raises (the `except` branch logs and returns `None`). -/
def generate_jwt_token (enc : JwtEncoder) (user_id : Nat) (username : String) :
    Option String :=
  match enc user_id username with
  | .ok t => some t
  | .error _ => none

/-- Response of the `/api/login` endpoint, projected to the fields the spec
talks about: an error is `(status, error message)`; success carries the
status, the `message` field, the (possibly null) `token` and the echoed
user identity. -/
inductive LoginOutcome where
  | error (status : Nat) (msg : String)
  | ok (status : Nat) (msg : String) (token : Option String)
      (userId : Nat) (username : String)
deriving DecidableEq, Repr

/-- `login` (`src/server/app.py` lines 323-381), starting after the JSON body
has been parsed.  `queried` is `User.query.filter_by(username=username).first()`;
the second component is that row after the handler ran (commits made
explicit). -/
def login (reqUsername reqPassword : Option String) (queried : Option User)
    (now : Nat) (enc : JwtEncoder) : LoginOutcome × Option User :=
  if falsy reqUsername || falsy reqPassword then
    (.error 400 "Missing required fields: username, password", queried)
  else
    match queried with
    | none => (.error 401 "Invalid username or password", none)
    | some user =>
      if user.is_locked now then
        (.error 403 "Account is temporarily locked due to multiple failed login attempts. Please try again later.",
         some user)
      else if ! user.check_password (reqPassword.getD "") then
        (.error 401 "Invalid username or password",
         some (user.increment_failed_attempts now))
      else if ! user.is_verified then
        (.error 403 "Email not verified. Please verify your email first.",
         some user)
      else
        (.ok 200 "Login successful"
           (generate_jwt_token enc user.id user.username) user.id user.username,
         some user.reset_failed_attempts)

/-- Event emitted by the Socket.IO `authenticate` handler: `auth_error` with
its `error` field, or `auth_success` with its `message` and echoed user. -/
inductive AuthEvent where
  | authError (msg : String)
  | authSuccess (msg : String) (userId : Nat) (username : String)
deriving DecidableEq, Repr

/-- `handle_authenticate` (`src/server/app.py` lines 439-491), same conventions
as `login`. -/
def handle_authenticate (reqUsername reqPassword : Option String)
    (queried : Option User) (now : Nat) : AuthEvent × Option User :=
  if falsy reqUsername || falsy reqPassword then
    (.authError "Missing credentials", queried)
  else
    match queried with
    | none => (.authError "Invalid credentials", none)
    | some user =>
      if user.is_locked now then
        (.authError "Account is temporarily locked", some user)
      else if ! user.check_password (reqPassword.getD "") then
        (.authError "Invalid credentials",
         some (user.increment_failed_attempts now))
      else if ! user.is_verified then
        (.authError "Email not verified", some user)
      else
        (.authSuccess "Authentication successful" user.id user.username,
         some user.reset_failed_attempts)

/-- Response of the `/api/verify-email` endpoint: error `(status, message)` or
success with its `message` (status 200). -/
inductive VerifyOutcome where
  | error (status : Nat) (msg : String)
  | ok (msg : String)
deriving DecidableEq, Repr

/-- `verify_email` (`src/server/app.py` lines 272-321), starting after the JSON
body has been parsed; `queried` is `User.query.filter_by(email=email).first()`.
When a code digest is stored but `verification_code_expires` is `NULL`, the
Python comparison `None < datetime.utcnow()` raises `TypeError`, which the
handler's `except` turns into a rolled-back 500 response; that branch is the
`error 500` case below. -/
def verify_email (reqEmail reqCode : Option String) (queried : Option User)
    (now : Nat) : VerifyOutcome × Option User :=
  if falsy reqEmail || falsy reqCode then
    (.error 400 "Missing required fields: email, code", queried)
  else
    match queried with
    | none => (.error 404 "User not found", none)
    | some user =>
      if user.is_verified then
        (.ok "Email already verified", some user)
      else if user.verification_code.isNone then
        (.error 400 "No verification code found. Please request a new one.",
         some user)
      else
        match user.verification_code_expires with
        | none => (.error 500 "An error occurred during verification", some user)
        | some expires =>
          if expires < now then
            (.error 400 "Verification code expired. Please request a new one.",
             some user)
          else if ! user.verify_code (reqCode.getD "") then
            (.error 400 "Invalid verification code", some user)
          else
            (.ok "Email verified successfully",
             some { user with
                      is_verified := true
                      verification_code := none
                      verification_code_expires := none })

/-- SMTP environment read by `send_verification_email`
(`src/server/email_service.py` lines 10-14): `smtp_port = none` models an
`SMTP_PORT` value that `int(...)` cannot parse (a raised `ValueError`). -/
structure SmtpConfig where
  smtp_username : String
  smtp_password : String
  smtp_port : Option Nat

/-- `send_verification_email` (`src/server/email_service.py`).  `deliver` is
the outcome of the SMTP session (connect, starttls, login, send — external
collaborator).  The body's `try/except` catches every delivery failure and
returns `False`, so the only exception that can escape is the `int(SMTP_PORT)`
parse on line 11, which runs before the `try`. -/
def send_verification_email (cfg : SmtpConfig) (deliver : Except String Unit)
    (_to_email _verification_code : String) : Except String Bool :=
  match cfg.smtp_port with
  | none => .error "invalid literal for int"
  | some _ =>
    if cfg.smtp_username == "" || cfg.smtp_password == "" then
      .ok true
    else
      match deliver with
      | .ok _ => .ok true
      | .error _ => .ok false

/-- `validate_username` (`src/server/app.py` lines 120-126): the regex
`^[a-zA-Z0-9_]{3,20}$` as a Boolean predicate.  Python `re.match` lets `$`
also match just before one trailing newline, hence the second disjunct. -/
def usernameRegexMatch (s : String) : Bool :=
  let core := fun (t : String) =>
    3 ≤ t.length && t.length ≤ 20 &&
      t.toList.all (fun c => c.isAlphanum || c == '_')
  core s || (s.endsWith "\n" && core (s.dropRight 1))

/-- `validate_username` as the `(valid, result-or-message)` pair of the
source, rendered as `Except`. -/
def validate_username (username : String) : Except String String :=
  if username == "" then .error "Username is required"
  else if usernameRegexMatch username then .ok username
  else .error "Username must be 3-20 alphanumeric characters or underscores"

/-- `validate_password_strength` (`src/server/app.py` lines 128-140). -/
def validate_password_strength (password : String) : Except String String :=
  if password == "" then .error "Password is required"
  else if password.length < 8 then
    .error "Password must be at least 8 characters"
  else if ! password.toList.any Char.isUpper then
    .error "Password must contain at least one uppercase letter"
  else if ! password.toList.any Char.isLower then
    .error "Password must contain at least one lowercase letter"
  else if ! password.toList.any Char.isDigit then
    .error "Password must contain at least one number"
  else .ok password

/-- Response of the `/api/signup` endpoint. -/
inductive SignupOutcome where
  | error (status : Nat) (msg : String)
  | created (msg : String) (user_id : Nat)
deriving DecidableEq, Repr

/-- `signup` (`src/server/app.py` lines 199-270), starting after the JSON body
has been parsed.  `db` is the user table; `emailValid` is the external
`email_validator` library (normalized address or raised error); `code` is the
6-digit string produced by the `secrets` randomness in
`generate_verification_code`; `newId` is the primary key the store assigns.
The second component is the table after the handler: note that when
`send_verification_email` raises, the `except` branch rolls back *after* the
user row was already committed, so the row stays. -/
def signup (reqUsername reqEmail reqPassword : Option String) (db : List User)
    (newId : Nat) (code : String) (emailValid : String → Except String String)
    (cfg : SmtpConfig) (deliver : Except String Unit) (now : Nat) :
    SignupOutcome × List User :=
  if falsy reqUsername || falsy reqEmail || falsy reqPassword then
    (.error 400 "Missing required fields: username, email, password", db)
  else
    match validate_username (reqUsername.getD "") with
    | .error msg => (.error 400 msg, db)
    | .ok username =>
      match emailValid (reqEmail.getD "") with
      | .error msg => (.error 400 ("Invalid email format: " ++ msg), db)
      | .ok email =>
        match validate_password_strength (reqPassword.getD "") with
        | .error msg => (.error 400 msg, db)
        | .ok _ =>
          if (db.find? (fun u => u.username == username)).isSome then
            (.error 400 "Username already exists", db)
          else if (db.find? (fun u => u.email == email)).isSome then
            (.error 400 "Email already registered", db)
          else
            let user : User :=
              { id := newId
                username := username
                email := email
                checkPassword := fun p => p == reqPassword.getD ""
                is_verified := false
                verification_code := some (fun c => c == code)
                verification_code_expires :=
                  some (now + VERIFICATION_CODE_EXPIRY_MINUTES)
                failed_login_attempts := 0
                locked_until := none }
            let db' := db ++ [user]
            match send_verification_email cfg deliver email code with
            | .error _ => (.error 500 "An error occurred during signup", db')
            | .ok _ =>
              (.created "User created successfully. Please check your email for verification code."
                 newId, db')

/-- The account-state trace of a sequence of `/api/login` attempts against one
account row: each attempt supplies a password and a clock reading; the row
after each attempt is the second component of `login` (the query always finds
this row, so `getD` never falls back). -/
def runAttempts (u : User) : List (String × Nat) → String → JwtEncoder → User
  | [], _, _ => u
  | (pw, t) :: rest, un, enc =>
    runAttempts ((login (some un) (some pw) (some u) t enc).2.getD u) rest un enc

/-- Reachable account states of the lockout machine: everything some sequence
of login attempts produces from `u0`. -/
def ReachableByLogin (u0 u : User) : Prop :=
  ∃ (atts : List (String × Nat)) (un : String) (enc : JwtEncoder),
    u = runAttempts u0 atts un enc

/-- Modelled from the spec: the `Session` value of the SessionRegistry
(spec section 3, "Session"), which is absent from `src/server/app.py` (the
`handle_connect` there only logs and emits an acknowledgement). -/
structure Session where
  account_id : Option Nat
  username : String
  connected_at : Nat
deriving DecidableEq, Repr

/-- Registry lookup on the connection-id-keyed map, represented as an
association list. -/
def rlookup (reg : List (String × Session)) (cid : String) : Option Session :=
  (reg.find? (fun p => p.1 == cid)).map (fun p => p.2)

/-- Modelled from the spec: `SessionRegistry.on_connect` (spec section 4.5) —
inserts a guest entry for the new connection id; `none` is the fatal failure
when the id is already present. -/
def on_connect (reg : List (String × Session)) (cid : String) (now : Nat) :
    Option (List (String × Session)) :=
  match rlookup reg cid with
  | some _ => none
  | none => some ((cid, ⟨none, "guest", now⟩) :: reg)

/-- Modelled from the spec: `SessionRegistry.on_disconnect` (spec section
4.5) — removes the entry, a no-op when absent. -/
def on_disconnect (reg : List (String × Session)) (cid : String) :
    List (String × Session) :=
  reg.filter (fun p => p.1 != cid)

/-- Modelled from the spec: `SessionRegistry.on_authenticate` (spec section
4.5) — runs the authenticate attempt (the `handle_authenticate` logic of
`src/server/app.py`); on success it replaces the entry's identity fields in
place, leaving `connected_at` unchanged; on failure the entry is left as
guest. -/
def on_authenticate (reg : List (String × Session)) (cid : String)
    (reqUsername reqPassword : Option String) (queried : Option User)
    (now : Nat) : (AuthEvent × Option User) × List (String × Session) :=
  let res := handle_authenticate reqUsername reqPassword queried now
  match res.1 with
  | .authSuccess _ uid un =>
    (res, reg.map (fun p =>
      if p.1 == cid then
        (p.1, { p.2 with account_id := some uid, username := un })
      else p))
  | .authError _ => (res, reg)

/-- A fixed always-succeeding `jwt.encode` used for concrete runs. -/
def encOk : JwtEncoder := fun _ _ => .ok "token"

/-- A concrete verified account in the state a fresh successful verification
leaves it: counter 0, no lock, digest verifying exactly the password
`Passw0rd`. -/
def uWit : User :=
  { id := 1
    username := "alice"
    email := "alice@example.com"
    checkPassword := fun p => p == "Passw0rd"
    is_verified := true
    verification_code := none
    verification_code_expires := none
    failed_login_attempts := 0
    locked_until := none }

/-! ### Helper lemmas shared by the claim theorems -/

theorem is_locked_of_none {u : User} (h : u.locked_until = none) (now : Nat) :
    u.is_locked now = false := by
  simp [User.is_locked, h]

theorem falsy_some_ne {s : String} (h : s ≠ "") : falsy (some s) = false := by
  simp [falsy, h]

/-- One wrong-password attempt on an unlocked account: the response and the
increment, in one equation. -/
theorem login_wrong_not_locked (u : User) {un p : String} (now : Nat)
    (enc : JwtEncoder) (hun : un ≠ "") (hp : p ≠ "")
    (hl : u.is_locked now = false) (hw : u.checkPassword p = false) :
    login (some un) (some p) (some u) now enc =
      (.error 401 "Invalid username or password",
       some (u.increment_failed_attempts now)) := by
  simp [login, falsy_some_ne hun, falsy_some_ne hp, hl, User.check_password, hw]

/-- C1: Lockout lifecycle of the login path.  (a) From a clean account
(counter 0, no lock), five consecutive wrong-password attempts leave the
counter at 5 and a lock expiring 15 minutes after the fifth attempt.
(b) While the lock window is open, the attempt is rejected as locked with the
row unchanged, for every stored password digest — the response does not
depend on the digest, so no hash comparison can have influenced it.
(c) Once the window has elapsed, a correct-password attempt on a verified
account succeeds, resets the counter to 0 and clears the lock. -/
theorem C1_lockout_lifecycle :
    (∀ (u : User) (un p : String) (t1 t2 t3 t4 t5 : Nat) (enc : JwtEncoder),
      un ≠ "" → p ≠ "" →
      u.failed_login_attempts = 0 → u.locked_until = none →
      u.checkPassword p = false →
      runAttempts u [(p, t1), (p, t2), (p, t3), (p, t4), (p, t5)] un enc =
        { u with failed_login_attempts := 5,
                 locked_until := some (t5 + LOCKOUT_MINUTES) }) ∧
    (∀ (u : User) (un p : String) (now : Nat) (enc : JwtEncoder)
      (chk : String → Bool),
      un ≠ "" → p ≠ "" →
      u.is_locked now = true →
      login (some un) (some p) (some { u with checkPassword := chk }) now enc =
        (.error 403 "Account is temporarily locked due to multiple failed login attempts. Please try again later.",
         some { u with checkPassword := chk })) ∧
    (∀ (u : User) (un p : String) (now : Nat) (enc : JwtEncoder),
      un ≠ "" → p ≠ "" →
      u.is_locked now = false →
      u.checkPassword p = true → u.is_verified = true →
      login (some un) (some p) (some u) now enc =
        (.ok 200 "Login successful" (generate_jwt_token enc u.id u.username)
           u.id u.username,
         some { u with failed_login_attempts := 0, locked_until := none })) := by
  refine ⟨?_, ?_, ?_⟩
  · intro u un p t1 t2 t3 t4 t5 enc hun hp hf hl hw
    simp [runAttempts, login, falsy_some_ne hun, falsy_some_ne hp,
      User.is_locked, User.check_password, User.increment_failed_attempts,
      hf, hl, hw, LOCKOUT_MINUTES]
  · intro u un p now enc chk hun hp hl
    have hl' : User.is_locked { u with checkPassword := chk } now = true := hl
    simp [login, falsy_some_ne hun, falsy_some_ne hp, hl']
  · intro u un p now enc hun hp hl hc hv
    simp [login, falsy_some_ne hun, falsy_some_ne hp, hl,
      User.check_password, hc, hv, User.reset_failed_attempts]

/-- The concrete account `uWit` after five wrong attempts, the last at time 7:
counter 5, locked until minute 22. -/
def uLockedWit : User :=
  { uWit with failed_login_attempts := 5, locked_until := some 22 }

theorem C1_lockout_lifecycle_witness :
    (uWit.failed_login_attempts = 0 ∧ uWit.locked_until = none ∧
      uWit.checkPassword "wrongpw" = false ∧
      runAttempts uWit [("wrongpw", 1), ("wrongpw", 2), ("wrongpw", 3),
          ("wrongpw", 5), ("wrongpw", 7)] "alice" encOk =
        { uWit with failed_login_attempts := 5,
                    locked_until := some (7 + LOCKOUT_MINUTES) }) ∧
    (uLockedWit.is_locked 10 = true ∧
      login (some "alice") (some "Passw0rd")
          (some { uLockedWit with checkPassword := fun p => p == "Passw0rd" })
          10 encOk =
        (.error 403 "Account is temporarily locked due to multiple failed login attempts. Please try again later.",
         some { uLockedWit with checkPassword := fun p => p == "Passw0rd" })) ∧
    (uLockedWit.is_locked 30 = false ∧
      uLockedWit.checkPassword "Passw0rd" = true ∧
      uLockedWit.is_verified = true ∧
      login (some "alice") (some "Passw0rd") (some uLockedWit) 30 encOk =
        (.ok 200 "Login successful"
           (generate_jwt_token encOk uLockedWit.id uLockedWit.username)
           uLockedWit.id uLockedWit.username,
         some { uLockedWit with failed_login_attempts := 0,
                                locked_until := none })) :=
  ⟨⟨rfl, rfl, by decide,
    C1_lockout_lifecycle.1 uWit "alice" "wrongpw" 1 2 3 5 7 encOk
      (by decide) (by decide) rfl rfl (by decide)⟩,
   ⟨by decide,
    C1_lockout_lifecycle.2.1 uLockedWit "alice" "Passw0rd" 10 encOk
      (fun p => p == "Passw0rd") (by decide) (by decide) (by decide)⟩,
   ⟨by decide, by decide, rfl,
    C1_lockout_lifecycle.2.2 uLockedWit "alice" "Passw0rd" 30 encOk
      (by decide) (by decide) (by decide) (by decide) rfl⟩⟩

/-- SMTP environment with no credentials configured (development mode) and a
well-formed port. -/
def cfgWit : SmtpConfig :=
  { smtp_username := "", smtp_password := "", smtp_port := some 587 }

/-- The user table produced by one successful signup of alice (verification
code 123456, clock at 0). -/
def signupDbWit : List User :=
  (signup (some "alice") (some "alice@example.com") (some "Passw0rd") [] 1
    "123456" (fun s => Except.ok s) cfgWit (Except.ok ()) 0).2

/-- C3 counterexample: on the account signup just created (still unverified),
a login attempt with a *wrong* password is answered with the 401
invalid-credentials error, not with the 403 unverified error the claim
predicts, and the failed-attempt counter moves from 0 to 1. -/
theorem C3_counterexample :
    (signupDbWit.find? (fun u => u.username == "alice")).map
        (fun u => u.is_verified) = some false ∧
    (login (some "alice") (some "WrongPass1")
        (signupDbWit.find? (fun u => u.username == "alice")) 0 encOk).1 ≠
      LoginOutcome.error 403 "Email not verified. Please verify your email first." ∧
    (login (some "alice") (some "WrongPass1")
        (signupDbWit.find? (fun u => u.username == "alice")) 0 encOk).1 =
      LoginOutcome.error 401 "Invalid username or password" ∧
    (login (some "alice") (some "WrongPass1")
        (signupDbWit.find? (fun u => u.username == "alice")) 0 encOk).2.map
        (fun u => u.failed_login_attempts) = some 1 := by
  refine ⟨rfl, by decide, rfl, rfl⟩

/-- C3 (amended): on an unverified, unlocked account, a login attempt with
the correct password is rejected as unverified with the row unchanged
(counter untouched); with a wrong password it is rejected as invalid
credentials and the failed-attempt counter is incremented. -/
theorem C3_unverified_login :
    ∀ (u : User) (un p : String) (now : Nat) (enc : JwtEncoder),
      un ≠ "" → p ≠ "" →
      u.is_verified = false → u.is_locked now = false →
      (u.checkPassword p = true →
        login (some un) (some p) (some u) now enc =
          (.error 403 "Email not verified. Please verify your email first.",
           some u)) ∧
      (u.checkPassword p = false →
        login (some un) (some p) (some u) now enc =
          (.error 401 "Invalid username or password",
           some (u.increment_failed_attempts now))) := by
  intro u un p now enc hun hp hv hl
  constructor
  · intro hc
    simp [login, falsy_some_ne hun, falsy_some_ne hp, hl,
      User.check_password, hc, hv]
  · intro hc
    simp [login, falsy_some_ne hun, falsy_some_ne hp, hl,
      User.check_password, hc]

/-- The concrete account `uWit` before verification. -/
def uUnverWit : User := { uWit with is_verified := false }

theorem C3_unverified_login_witness :
    (uUnverWit.is_verified = false ∧ uUnverWit.is_locked 0 = false ∧
      uUnverWit.checkPassword "Passw0rd" = true ∧
      login (some "alice") (some "Passw0rd") (some uUnverWit) 0 encOk =
        (.error 403 "Email not verified. Please verify your email first.",
         some uUnverWit)) ∧
    (uUnverWit.checkPassword "WrongPass1" = false ∧
      login (some "alice") (some "WrongPass1") (some uUnverWit) 0 encOk =
        (.error 401 "Invalid username or password",
         some (uUnverWit.increment_failed_attempts 0))) :=
  ⟨⟨rfl, rfl, by decide,
    (C3_unverified_login uUnverWit "alice" "Passw0rd" 0 encOk
      (by decide) (by decide) rfl rfl).1 (by decide)⟩,
   ⟨by decide,
    (C3_unverified_login uUnverWit "alice" "WrongPass1" 0 encOk
      (by decide) (by decide) rfl rfl).2 (by decide)⟩⟩

/-- C4: neither login path leaks account existence — the rejection for an
unknown username carries exactly the same error message as the rejection for
a known (unlocked) username with a wrong password: the string
"Invalid username or password" on the HTTP path, and the string
"Invalid credentials" on the Socket.IO authenticate path. -/
theorem C4_no_existence_leak :
    (∀ (un p : String) (now : Nat) (enc : JwtEncoder), un ≠ "" → p ≠ "" →
      (login (some un) (some p) none now enc).1 =
        .error 401 "Invalid username or password") ∧
    (∀ (u : User) (un p : String) (now : Nat) (enc : JwtEncoder),
      un ≠ "" → p ≠ "" → u.is_locked now = false → u.checkPassword p = false →
      (login (some un) (some p) (some u) now enc).1 =
        .error 401 "Invalid username or password") ∧
    (∀ (un p : String) (now : Nat), un ≠ "" → p ≠ "" →
      (handle_authenticate (some un) (some p) none now).1 =
        .authError "Invalid credentials") ∧
    (∀ (u : User) (un p : String) (now : Nat),
      un ≠ "" → p ≠ "" → u.is_locked now = false → u.checkPassword p = false →
      (handle_authenticate (some un) (some p) (some u) now).1 =
        .authError "Invalid credentials") := by
  refine ⟨?_, ?_, ?_, ?_⟩
  · intro un p now enc hun hp
    simp [login, falsy_some_ne hun, falsy_some_ne hp]
  · intro u un p now enc hun hp hl hc
    simp [login, falsy_some_ne hun, falsy_some_ne hp, hl,
      User.check_password, hc]
  · intro un p now hun hp
    simp [handle_authenticate, falsy_some_ne hun, falsy_some_ne hp]
  · intro u un p now hun hp hl hc
    simp [handle_authenticate, falsy_some_ne hun, falsy_some_ne hp, hl,
      User.check_password, hc]

theorem C4_no_existence_leak_witness :
    ((login (some "ghost") (some "WrongPass1") none 0 encOk).1 =
      .error 401 "Invalid username or password") ∧
    (uWit.is_locked 0 = false ∧ uWit.checkPassword "WrongPass1" = false ∧
      (login (some "alice") (some "WrongPass1") (some uWit) 0 encOk).1 =
        .error 401 "Invalid username or password") ∧
    ((handle_authenticate (some "ghost") (some "WrongPass1") none 0).1 =
      .authError "Invalid credentials") ∧
    ((handle_authenticate (some "alice") (some "WrongPass1") (some uWit) 0).1 =
      .authError "Invalid credentials") :=
  ⟨C4_no_existence_leak.1 "ghost" "WrongPass1" 0 encOk (by decide) (by decide),
   ⟨rfl, by decide,
    C4_no_existence_leak.2.1 uWit "alice" "WrongPass1" 0 encOk
      (by decide) (by decide) rfl (by decide)⟩,
   C4_no_existence_leak.2.2.1 "ghost" "WrongPass1" 0 (by decide) (by decide),
   C4_no_existence_leak.2.2.2 uWit "alice" "WrongPass1" 0
     (by decide) (by decide) rfl (by decide)⟩

/-- C5: case analysis of `verify_email`.  Unknown email errors; an already
verified account gets idempotent success with no state change; no stored code
errors; an expiry in the past errors; a digest mismatch errors; otherwise the
account becomes verified with code digest and expiry cleared to null — and a
retry with the same code then lands in the idempotent already-verified case,
so the correct plaintext succeeds exactly once. -/
theorem C5_verify_email_cases :
    ∀ (em c : String) (now : Nat), em ≠ "" → c ≠ "" →
      (verify_email (some em) (some c) none now =
        (.error 404 "User not found", none)) ∧
      (∀ u : User, u.is_verified = true →
        verify_email (some em) (some c) (some u) now =
          (.ok "Email already verified", some u)) ∧
      (∀ u : User, u.is_verified = false → u.verification_code = none →
        verify_email (some em) (some c) (some u) now =
          (.error 400 "No verification code found. Please request a new one.",
           some u)) ∧
      (∀ (u : User) (chk : String → Bool) (exp : Nat),
        u.is_verified = false → u.verification_code = some chk →
        u.verification_code_expires = some exp → exp < now →
        verify_email (some em) (some c) (some u) now =
          (.error 400 "Verification code expired. Please request a new one.",
           some u)) ∧
      (∀ (u : User) (chk : String → Bool) (exp : Nat),
        u.is_verified = false → u.verification_code = some chk →
        u.verification_code_expires = some exp → ¬ exp < now →
        chk c = false →
        verify_email (some em) (some c) (some u) now =
          (.error 400 "Invalid verification code", some u)) ∧
      (∀ (u : User) (chk : String → Bool) (exp : Nat),
        u.is_verified = false → u.verification_code = some chk →
        u.verification_code_expires = some exp → ¬ exp < now →
        chk c = true →
        verify_email (some em) (some c) (some u) now =
          (.ok "Email verified successfully",
           some { u with is_verified := true, verification_code := none,
                         verification_code_expires := none }) ∧
        (∀ now' : Nat,
          verify_email (some em) (some c)
              (some { u with is_verified := true, verification_code := none,
                             verification_code_expires := none }) now' =
            (.ok "Email already verified",
             some { u with is_verified := true, verification_code := none,
                           verification_code_expires := none }))) := by
  intro em c now hem hc
  refine ⟨?_, ?_, ?_, ?_, ?_, ?_⟩
  · simp [verify_email, falsy_some_ne hem, falsy_some_ne hc]
  · intro u hv
    simp [verify_email, falsy_some_ne hem, falsy_some_ne hc, hv]
  · intro u hv hcode
    simp [verify_email, falsy_some_ne hem, falsy_some_ne hc, hv, hcode]
  · intro u chk exp hv hcode hexp hlt
    simp [verify_email, falsy_some_ne hem, falsy_some_ne hc, hv, hcode,
      hexp, hlt]
  · intro u chk exp hv hcode hexp hlt hmiss
    simp [verify_email, falsy_some_ne hem, falsy_some_ne hc, hv, hcode,
      hexp, hlt, User.verify_code, hmiss]
  · intro u chk exp hv hcode hexp hlt hok
    refine ⟨?_, ?_⟩
    · simp [verify_email, falsy_some_ne hem, falsy_some_ne hc, hv, hcode,
        hexp, hlt, User.verify_code, hok]
    · intro now'
      simp [verify_email, falsy_some_ne hem, falsy_some_ne hc]

/-- The concrete account `uWit` in the state signup leaves it: unverified,
with a pending code digest verifying 123456 and expiring at minute 1440. -/
def uPendingWit : User :=
  { uWit with is_verified := false
              verification_code := some (fun c => c == "123456")
              verification_code_expires := some VERIFICATION_CODE_EXPIRY_MINUTES }

theorem C5_verify_email_cases_witness :
    (verify_email (some "alice@example.com") (some "123456") none 5 =
      (.error 404 "User not found", none)) ∧
    (uPendingWit.is_verified = false ∧
      verify_email (some "alice@example.com") (some "123456")
          (some uPendingWit) 2000 =
        (.error 400 "Verification code expired. Please request a new one.",
         some uPendingWit)) ∧
    (verify_email (some "alice@example.com") (some "999999")
        (some uPendingWit) 5 =
      (.error 400 "Invalid verification code", some uPendingWit)) ∧
    (verify_email (some "alice@example.com") (some "123456")
        (some uPendingWit) 5 =
      (.ok "Email verified successfully",
       some { uPendingWit with is_verified := true, verification_code := none,
                               verification_code_expires := none })) ∧
    (verify_email (some "alice@example.com") (some "123456")
        (some { uPendingWit with is_verified := true,
                                 verification_code := none,
                                 verification_code_expires := none }) 9 =
      (.ok "Email already verified",
       some { uPendingWit with is_verified := true, verification_code := none,
                               verification_code_expires := none })) :=
  ⟨(C5_verify_email_cases "alice@example.com" "123456" 5
      (by decide) (by decide)).1,
   ⟨rfl,
    (C5_verify_email_cases "alice@example.com" "123456" 2000
        (by decide) (by decide)).2.2.2.1 uPendingWit
      (fun c => c == "123456") VERIFICATION_CODE_EXPIRY_MINUTES
      rfl rfl rfl (by decide)⟩,
   (C5_verify_email_cases "alice@example.com" "999999" 5
      (by decide) (by decide)).2.2.2.2.1 uPendingWit
     (fun c => c == "123456") VERIFICATION_CODE_EXPIRY_MINUTES
     rfl rfl rfl (by decide) (by decide),
   ((C5_verify_email_cases "alice@example.com" "123456" 5
      (by decide) (by decide)).2.2.2.2.2 uPendingWit
     (fun c => c == "123456") VERIFICATION_CODE_EXPIRY_MINUTES
     rfl rfl rfl (by decide) (by decide)).1,
   ((C5_verify_email_cases "alice@example.com" "123456" 5
      (by decide) (by decide)).2.2.2.2.2 uPendingWit
     (fun c => c == "123456") VERIFICATION_CODE_EXPIRY_MINUTES
     rfl rfl rfl (by decide) (by decide)).2 9⟩

/-- Common accept/reject classification of a login decision, for comparing
the two transport paths. -/
inductive Decision where
  | rejectedMissing
  | rejectedInvalid
  | rejectedLocked
  | rejectedUnverified
  | accepted
deriving DecidableEq, Repr

/-- Classify an HTTP login response by the branch of the handler that
produced it (the four error branches have pairwise distinct
status/message combinations). -/
def loginDecision : LoginOutcome → Decision
  | .ok _ _ _ _ _ => .accepted
  | .error s m =>
    if s = 400 then .rejectedMissing
    else if s = 401 then .rejectedInvalid
    else if m = "Account is temporarily locked due to multiple failed login attempts. Please try again later." then
      .rejectedLocked
    else .rejectedUnverified

/-- Classify a Socket.IO authenticate event by the branch that emitted it. -/
def authDecision : AuthEvent → Decision
  | .authSuccess _ _ _ => .accepted
  | .authError m =>
    if m = "Missing credentials" then .rejectedMissing
    else if m = "Invalid credentials" then .rejectedInvalid
    else if m = "Account is temporarily locked" then .rejectedLocked
    else .rejectedUnverified

/-- C7: for every request and every account state, the HTTP login handler and
the Socket.IO authenticate handler take the same decision (classified on the
common accept/reject scale) and perform exactly the same account-state
transition. -/
theorem C7_login_paths_equivalent :
    ∀ (reqUsername reqPassword : Option String) (queried : Option User)
      (now : Nat) (enc : JwtEncoder),
      loginDecision (login reqUsername reqPassword queried now enc).1 =
        authDecision
          (handle_authenticate reqUsername reqPassword queried now).1 ∧
      (login reqUsername reqPassword queried now enc).2 =
        (handle_authenticate reqUsername reqPassword queried now).2 := by
  intro reqU reqP queried now enc
  rcases queried with _ | u
  · by_cases hf : (falsy reqU || falsy reqP) = true <;>
      simp [login, handle_authenticate, hf, loginDecision, authDecision]
  · by_cases hf : (falsy reqU || falsy reqP) = true
    · simp [login, handle_authenticate, hf, loginDecision, authDecision]
    · by_cases hl : u.is_locked now = true
      · simp [login, handle_authenticate, hf, hl, loginDecision, authDecision]
      · by_cases hc : u.check_password (reqP.getD "") = true
        · by_cases hv : u.is_verified = true <;>
            simp [login, handle_authenticate, hf, hl, hc, hv,
              loginDecision, authDecision]
        · simp [login, handle_authenticate, hf, hl, hc,
            loginDecision, authDecision]

/-- C9: once the lock window has elapsed but the counter still stands at 5 or
more (no successful login reset it), a single further wrong-password attempt
re-locks the account for 15 minutes from now. -/
theorem C9_relock_after_expiry :
    ∀ (u : User) (un p : String) (now : Nat) (enc : JwtEncoder),
      un ≠ "" → p ≠ "" →
      5 ≤ u.failed_login_attempts → u.is_locked now = false →
      u.checkPassword p = false →
      login (some un) (some p) (some u) now enc =
        (.error 401 "Invalid username or password",
         some { u with
                  failed_login_attempts := u.failed_login_attempts + 1,
                  locked_until := some (now + LOCKOUT_MINUTES) }) := by
  intro u un p now enc hun hp h5 hl hc
  rw [login_wrong_not_locked u now enc hun hp hl hc]
  have h5' : 5 ≤ u.failed_login_attempts + 1 := Nat.le_succ_of_le h5
  simp [User.increment_failed_attempts, h5']

theorem C9_relock_after_expiry_witness :
    5 ≤ uLockedWit.failed_login_attempts ∧
    uLockedWit.is_locked 30 = false ∧
    uLockedWit.checkPassword "WrongPass1" = false ∧
    login (some "alice") (some "WrongPass1") (some uLockedWit) 30 encOk =
      (.error 401 "Invalid username or password",
       some { uLockedWit with
                failed_login_attempts := uLockedWit.failed_login_attempts + 1,
                locked_until := some (30 + LOCKOUT_MINUTES) }) :=
  ⟨by decide, by decide, by decide,
   C9_relock_after_expiry uLockedWit "alice" "WrongPass1" 30 encOk
     (by decide) (by decide) (by decide) (by decide) (by decide)⟩

/-- C10: when `jwt.encode` raises, `generate_jwt_token` returns null instead
of propagating, and the HTTP login success path still answers 200
"Login successful" with a null token field (and still resets the lockout
state). -/
theorem C10_null_token_on_encoder_failure :
    (∀ (uid : Nat) (un e : String) (enc : JwtEncoder),
      enc uid un = .error e → generate_jwt_token enc uid un = none) ∧
    (∀ (u : User) (un p e : String) (now : Nat) (enc : JwtEncoder),
      un ≠ "" → p ≠ "" →
      u.is_locked now = false → u.checkPassword p = true →
      u.is_verified = true → enc u.id u.username = .error e →
      login (some un) (some p) (some u) now enc =
        (.ok 200 "Login successful" none u.id u.username,
         some u.reset_failed_attempts)) := by
  constructor
  · intro uid un e enc henc
    simp [generate_jwt_token, henc]
  · intro u un p e now enc hun hp hl hc hv henc
    simp [login, falsy_some_ne hun, falsy_some_ne hp, hl,
      User.check_password, hc, hv, generate_jwt_token, henc]

/-- A `jwt.encode` that always raises. -/
def encFail : JwtEncoder := fun _ _ => .error "encoding failure"

theorem C10_null_token_on_encoder_failure_witness :
    (encFail uWit.id uWit.username = .error "encoding failure" ∧
      generate_jwt_token encFail uWit.id uWit.username = none) ∧
    (uWit.is_locked 0 = false ∧ uWit.checkPassword "Passw0rd" = true ∧
      uWit.is_verified = true ∧
      login (some "alice") (some "Passw0rd") (some uWit) 0 encFail =
        (.ok 200 "Login successful" none uWit.id uWit.username,
         some uWit.reset_failed_attempts)) :=
  ⟨⟨rfl,
    C10_null_token_on_encoder_failure.1 uWit.id uWit.username
      "encoding failure" encFail rfl⟩,
   ⟨rfl, by decide, rfl,
    C10_null_token_on_encoder_failure.2 uWit "alice" "Passw0rd"
      "encoding failure" 0 encFail (by decide) (by decide) rfl (by decide)
      rfl rfl⟩⟩

/-- C8: once validation and uniqueness checks pass (and the SMTP port parses),
signup commits the account and answers 201 with the new id for *every*
delivery outcome — in particular when the SMTP session fails — so
mail-dispatch failure never surfaces to the caller. -/
theorem C8_signup_survives_mail_failure :
    ∀ (un em pw em' code : String) (db : List User) (newId : Nat)
      (emailValid : String → Except String String) (cfg : SmtpConfig)
      (port now : Nat),
      un ≠ "" → em ≠ "" → pw ≠ "" →
      validate_username un = .ok un →
      emailValid em = .ok em' →
      validate_password_strength pw = .ok pw →
      db.find? (fun u => u.username == un) = none →
      db.find? (fun u => u.email == em') = none →
      cfg.smtp_port = some port →
      ∀ deliver : Except String Unit,
        signup (some un) (some em) (some pw) db newId code emailValid cfg
            deliver now =
          (.created "User created successfully. Please check your email for verification code."
             newId,
           db ++ [{ id := newId, username := un, email := em',
                    checkPassword := fun p => p == pw,
                    is_verified := false,
                    verification_code := some (fun c => c == code),
                    verification_code_expires :=
                      some (now + VERIFICATION_CODE_EXPIRY_MINUTES),
                    failed_login_attempts := 0, locked_until := none }]) := by
  intro un em pw em' code db newId emailValid cfg port now hun hem hpw
    hvu hev hvp hfind1 hfind2 hport deliver
  have hsend : ∃ b, send_verification_email cfg deliver em' code = .ok b := by
    unfold send_verification_email
    rw [hport]
    by_cases hcred :
        (cfg.smtp_username == "" || cfg.smtp_password == "") = true
    · exact ⟨true, by simp [hcred]⟩
    · cases deliver with
      | ok _ => exact ⟨true, by simp [hcred]⟩
      | error _ => exact ⟨false, by simp [hcred]⟩
  obtain ⟨b, hb⟩ := hsend
  simp [signup, falsy_some_ne hun, falsy_some_ne hem, falsy_some_ne hpw,
    hvu, hev, hvp, hfind1, hfind2, hb]

/-- SMTP environment with configured credentials (so that delivery is really
attempted) and a well-formed port. -/
def cfgMailWit : SmtpConfig :=
  { smtp_username := "mailer", smtp_password := "hunter2hunter",
    smtp_port := some 587 }

theorem C8_signup_survives_mail_failure_witness :
    validate_username "alice" = .ok "alice" ∧
    validate_password_strength "Passw0rd" = .ok "Passw0rd" ∧
    cfgMailWit.smtp_port = some 587 ∧
    signup (some "alice") (some "alice@example.com") (some "Passw0rd") [] 1
        "123456" (fun s => Except.ok s) cfgMailWit
        (Except.error "connection refused") 0 =
      (.created "User created successfully. Please check your email for verification code."
         1,
       [] ++ [{ id := 1, username := "alice", email := "alice@example.com",
                checkPassword := fun p => p == "Passw0rd",
                is_verified := false,
                verification_code := some (fun c => c == "123456"),
                verification_code_expires :=
                  some (0 + VERIFICATION_CODE_EXPIRY_MINUTES),
                failed_login_attempts := 0, locked_until := none }]) :=
  ⟨rfl, rfl, rfl,
   C8_signup_survives_mail_failure "alice" "alice@example.com" "Passw0rd"
     "alice@example.com" "123456" [] 1 (fun s => Except.ok s) cfgMailWit
     587 0 (by decide) (by decide) (by decide) rfl rfl rfl rfl rfl rfl
     (Except.error "connection refused")⟩

/-- The invariant the lockout data actually maintains: the counter is at most
4 with no lock recorded, or the counter has reached 5 and a lock timestamp is
recorded (possibly already in the past). -/
def LockStateOk (u : User) : Prop :=
  (u.failed_login_attempts ≤ 4 ∧ u.locked_until = none) ∨
  (5 ≤ u.failed_login_attempts ∧ u.locked_until ≠ none)

theorem lockStateOk_step (u : User) (un pw : String) (t : Nat)
    (enc : JwtEncoder) (h : LockStateOk u) :
    LockStateOk ((login (some un) (some pw) (some u) t enc).2.getD u) := by
  by_cases hf : (falsy (some un) || falsy (some pw)) = true
  · simpa [login, hf] using h
  · by_cases hl : u.is_locked t = true
    · simpa [login, hf, hl] using h
    · by_cases hc : u.check_password pw = true
      · by_cases hv : u.is_verified = true
        · simp [login, hf, hl, hc, hv, User.reset_failed_attempts]
          exact Or.inl ⟨by simp, rfl⟩
        · simpa [login, hf, hl, hc, hv] using h
      · by_cases h5 : 5 ≤ u.failed_login_attempts + 1
        · simp [login, hf, hl, hc, User.increment_failed_attempts, h5]
          exact Or.inr ⟨h5, by simp⟩
        · simp [login, hf, hl, hc, User.increment_failed_attempts, h5]
          rcases h with ⟨_, hn⟩ | ⟨hge, _⟩
          · exact Or.inl ⟨by simp; omega, hn⟩
          · exact absurd hge (by omega)

theorem lockStateOk_run (atts : List (String × Nat)) :
    ∀ (u : User) (un : String) (enc : JwtEncoder), LockStateOk u →
      LockStateOk (runAttempts u atts un enc) := by
  induction atts with
  | nil => intro u un enc h; exact h
  | cons a rest ih =>
    intro u un enc h
    exact ih _ un enc (lockStateOk_step u un a.1 a.2 enc h)

/-- C6 counterexample: from the clean verified account `uWit`, five
wrong-password attempts at time 0 reach a state whose lock window has already
elapsed by minute 15 — so the account is *not* locked at `now = 15` — while
the failed-attempt counter stands at 5, outside [0,4].  This refutes the
claim that every reachable not-locked state has a counter in [0,4]. -/
theorem C6_counterexample :
    ¬ (∀ (u0 u : User) (now : Nat),
        u0.failed_login_attempts = 0 → u0.locked_until = none →
        ReachableByLogin u0 u → u.is_locked now = false →
        u.failed_login_attempts ≤ 4) := by
  intro h
  have h4 := h uWit
    (runAttempts uWit
      [("w", 0), ("w", 0), ("w", 0), ("w", 0), ("w", 0)] "alice" encOk)
    15 rfl rfl
    ⟨[("w", 0), ("w", 0), ("w", 0), ("w", 0), ("w", 0)], "alice", encOk, rfl⟩
    (by decide)
  exact absurd h4 (by decide)

/-- C6 (amended): in every state reachable by login attempts from a clean
account, a counter value of at most 4 coincides with `locked_until` being
null, and a counter that has reached 5 coincides with a recorded
`locked_until` — which may however already lie in the past, so "not locked"
(the derived predicate) does not bound the counter; only "no lock recorded"
does. -/
theorem C6_lockout_state_partition :
    ∀ u0 u : User,
      u0.failed_login_attempts = 0 → u0.locked_until = none →
      ReachableByLogin u0 u →
      (u.locked_until = none → u.failed_login_attempts ≤ 4) ∧
      (5 ≤ u.failed_login_attempts → u.locked_until ≠ none) := by
  intro u0 u hf hl hr
  obtain ⟨atts, un, enc, hu⟩ := hr
  subst hu
  have h0 : LockStateOk u0 := Or.inl ⟨by omega, hl⟩
  have hrun := lockStateOk_run atts u0 un enc h0
  rcases hrun with ⟨h4, hn⟩ | ⟨h5, hs⟩
  · exact ⟨fun _ => h4, fun hge => by omega⟩
  · exact ⟨fun hnone => absurd hnone hs, fun _ => hs⟩

theorem C6_lockout_state_partition_witness :
    uWit.failed_login_attempts = 0 ∧ uWit.locked_until = none ∧
    ((runAttempts uWit
        [("w", 1), ("w", 2), ("w", 3), ("w", 4), ("w", 6)] "alice"
        encOk).locked_until = none →
      (runAttempts uWit
        [("w", 1), ("w", 2), ("w", 3), ("w", 4), ("w", 6)] "alice"
        encOk).failed_login_attempts ≤ 4) ∧
    (5 ≤ (runAttempts uWit
        [("w", 1), ("w", 2), ("w", 3), ("w", 4), ("w", 6)] "alice"
        encOk).failed_login_attempts →
      (runAttempts uWit
        [("w", 1), ("w", 2), ("w", 3), ("w", 4), ("w", 6)] "alice"
        encOk).locked_until ≠ none) :=
  ⟨rfl, rfl,
   C6_lockout_state_partition uWit _ rfl rfl
     ⟨[("w", 1), ("w", 2), ("w", 3), ("w", 4), ("w", 6)], "alice", encOk,
      rfl⟩⟩

/-- Number of registry entries keyed by a connection id. -/
def sessionCount (reg : List (String × Session)) (cid : String) : Nat :=
  reg.countP (fun p => p.1 == cid)

theorem count_zero_not_mem {reg : List (String × Session)} {cid : String}
    (h : sessionCount reg cid = 0) :
    ∀ x ∈ reg, x.1 ≠ cid := by
  intro x hx
  have h' := List.countP_eq_zero.mp h x hx
  simpa using h'

theorem rlookup_none_of_not_mem {reg : List (String × Session)} {cid : String}
    (h : ∀ x ∈ reg, x.1 ≠ cid) : rlookup reg cid = none := by
  induction reg with
  | nil => rfl
  | cons a rest ih =>
    have ha : (a.1 == cid) = false := by
      simpa using h a (by simp)
    have ih' := ih (fun x hx => h x (by simp [hx]))
    simp only [rlookup, List.find?_cons, ha]
    simpa [rlookup] using ih'

theorem map_update_noop {reg : List (String × Session)} {cid : String}
    (f : String × Session → String × Session)
    (h : ∀ x ∈ reg, x.1 ≠ cid) :
    reg.map (fun p => if p.1 = cid then f p else p) = reg := by
  induction reg with
  | nil => rfl
  | cons a rest ih =>
    have ha : ¬ a.1 = cid := h a (by simp)
    have ih' := ih (fun x hx => h x (by simp [hx]))
    simp only [List.map_cons]
    rw [if_neg ha, ih']

theorem filter_ne_noop {reg : List (String × Session)} {cid : String}
    (h : ∀ x ∈ reg, x.1 ≠ cid) :
    reg.filter (fun p => p.1 != cid) = reg := by
  induction reg with
  | nil => rfl
  | cons a rest ih =>
    have ha : (a.1 != cid) = true := by
      simpa using h a (by simp)
    have ih' := ih (fun x hx => h x (by simp [hx]))
    simp only [List.filter_cons]
    rw [if_pos ha, ih']

/-- C2: lifecycle of one persistent connection in the session registry.
`on_connect` fails (fatally) exactly when the id is already present, and
otherwise inserts the guest entry `(account_id := none, username := guest,
connected_at := now)`; from then on the id has exactly one entry; a
successful authenticate replaces only the identity fields of that entry
(`connected_at` stays) and keeps it unique; disconnect removes it, so after
connect → authenticate → disconnect the registry no longer contains the
connection id. -/
theorem C2_session_registry_lifecycle :
    ∀ (reg : List (String × Session)) (cid : String) (now : Nat),
      (∀ s : Session, rlookup reg cid = some s →
        on_connect reg cid now = none) ∧
      (sessionCount reg cid = 0 →
        on_connect reg cid now =
          some ((cid, ⟨none, "guest", now⟩) :: reg) ∧
        rlookup ((cid, (⟨none, "guest", now⟩ : Session)) :: reg) cid =
          some ⟨none, "guest", now⟩ ∧
        sessionCount ((cid, (⟨none, "guest", now⟩ : Session)) :: reg) cid =
          1 ∧
        (∀ (u : User) (un p : String) (t : Nat),
          un ≠ "" → p ≠ "" → u.is_locked t = false →
          u.checkPassword p = true → u.is_verified = true →
          (on_authenticate ((cid, ⟨none, "guest", now⟩) :: reg) cid
              (some un) (some p) (some u) t).1.1 =
            .authSuccess "Authentication successful" u.id u.username ∧
          (on_authenticate ((cid, ⟨none, "guest", now⟩) :: reg) cid
              (some un) (some p) (some u) t).2 =
            (cid, ⟨some u.id, u.username, now⟩) :: reg ∧
          sessionCount ((cid, (⟨some u.id, u.username, now⟩ : Session)) ::
            reg) cid = 1 ∧
          on_disconnect ((cid, ⟨some u.id, u.username, now⟩) :: reg) cid =
            reg ∧
          rlookup
            (on_disconnect ((cid, ⟨some u.id, u.username, now⟩) :: reg) cid)
            cid = none)) := by
  intro reg cid now
  constructor
  · intro s hs
    simp [on_connect, hs]
  · intro hcount
    have hmem : ∀ x ∈ reg, x.1 ≠ cid := count_zero_not_mem hcount
    have hcount' : List.countP
        (fun p : String × Session => p.1 == cid) reg = 0 := hcount
    have hnone : rlookup reg cid = none := rlookup_none_of_not_mem hmem
    refine ⟨by simp [on_connect, hnone], by simp [rlookup, List.find?], ?_, ?_⟩
    · simp [sessionCount, List.countP_cons, hcount']
    · intro u un p t hun hp hl hc hv
      have hauth :
          handle_authenticate (some un) (some p) (some u) t =
            (.authSuccess "Authentication successful" u.id u.username,
             some u.reset_failed_attempts) := by
        simp [handle_authenticate, falsy_some_ne hun, falsy_some_ne hp, hl,
          User.check_password, hc, hv]
      have hdisc : on_disconnect ((cid, (⟨some u.id, u.username, now⟩ :
          Session)) :: reg) cid = reg := by
        simp [on_disconnect, List.filter_cons, filter_ne_noop hmem]
      refine ⟨by simp [on_authenticate, hauth], ?_, ?_, hdisc, ?_⟩
      · simp [on_authenticate, hauth, map_update_noop _ hmem]
      · simp [sessionCount, List.countP_cons, hcount']
      · rw [hdisc]
        exact hnone

theorem C2_session_registry_lifecycle_witness :
    sessionCount ([] : List (String × Session)) "sid1" = 0 ∧
    on_connect [] "sid1" 3 =
      some [("sid1", (⟨none, "guest", 3⟩ : Session))] ∧
    rlookup [("sid1", (⟨none, "guest", 3⟩ : Session))] "sid1" =
      some ⟨none, "guest", 3⟩ ∧
    sessionCount [("sid1", (⟨none, "guest", 3⟩ : Session))] "sid1" = 1 ∧
    (on_authenticate [("sid1", ⟨none, "guest", 3⟩)] "sid1" (some "alice")
        (some "Passw0rd") (some uWit) 4).1.1 =
      .authSuccess "Authentication successful" uWit.id uWit.username ∧
    (on_authenticate [("sid1", ⟨none, "guest", 3⟩)] "sid1" (some "alice")
        (some "Passw0rd") (some uWit) 4).2 =
      [("sid1", (⟨some uWit.id, uWit.username, 3⟩ : Session))] ∧
    sessionCount [("sid1", (⟨some uWit.id, uWit.username, 3⟩ : Session))]
      "sid1" = 1 ∧
    on_disconnect [("sid1", ⟨some uWit.id, uWit.username, 3⟩)] "sid1" = [] ∧
    rlookup (on_disconnect [("sid1", ⟨some uWit.id, uWit.username, 3⟩)]
      "sid1") "sid1" = none := by
  have h := (C2_session_registry_lifecycle [] "sid1" 3).2 rfl
  have h4 := h.2.2.2 uWit "alice" "Passw0rd" 4 (by decide) (by decide)
    (by decide) (by decide) rfl
  exact ⟨rfl, h.1, h.2.1, h.2.2.1, h4.1, h4.2.1, h4.2.2.1, h4.2.2.2.1,
    h4.2.2.2.2⟩
